import Mathlib

set_option maxRecDepth 4000

namespace Kubo

/-- Pinning-service configuration block (config.ConfigPinningService), restricted
to the fields the gateway admission layer reads. -/
structure ConfigPinningService where
  pinningService : String
  blockserviceApiKey : String
  dedicatedGateway : Bool
deriving DecidableEq, Repr

/-- An HTTP request as the middleware observes it: the URL path (as a character
sequence), the client remote address (r.RemoteAddr), and the method. -/
structure Request where
  path : List Char
  remoteAddr : String
  method : String
deriving DecidableEq, Repr

/-- A parsed content identifier: its canonical string form (cid.String()) and the
hex string of its multihash (cid.Hash().HexString()). CID parsing itself lives in
the external go-cid library, so it is a parameter of the middleware model. -/
structure Cid where
  canonical : String
  hashHex : String
deriving DecidableEq, Repr

/-- Outcome of the single outbound HTTP call a policy check makes: none models a
transport-level failure (client.Do returns an error, no response obtained);
some (code, msg) models a response with status code and the remote service's own
message/body, which the source never reads. -/
abbrev RemoteResp := Option (Nat × String)

/-- The fixed takedown message checkDmca returns on remote status 410. -/
def takedownMsg : String :=
  "The content that you requested has been blocked because of legal, abuse, malware or security reasons. Please contact support@w3ipfs.storage for more information"

/-- Moderation (DMCA) check, from checkDmca: one outbound GET to
{pinningService}/api/dmca/{hash} with the blockservice-API-Key header and a
15-second client timeout; the remote outcome is supplied as resp. Returns
(status, optional error message); a present message means the caller rejects. -/
def checkDmca (_hash : String) (_cfg : ConfigPinningService) (resp : RemoteResp) :
    Nat × Option String :=
  match resp with
  | none => (500, some "Error while calling DMCA API")
  | some (code, _msg) =>
    if code = 410 then (410, some takedownMsg)
    else if code ≠ 200 then (code, some "Something went wrong")
    else (200, none)

/-- Access/subscription check, from getDedicatedGatewayAccess: one outbound GET
to {pinningService}/api/dedicatedGateways/{hashHex}, same header and timeout. -/
def getDedicatedGatewayAccess (_hash : String) (_cfg : ConfigPinningService)
    (resp : RemoteResp) : Nat × Option String :=
  match resp with
  | none => (500, some "Error while calling dedicated gateway API")
  | some (code, _msg) =>
    if code ≠ 200 then (code, some "No users have subscribed to this hash yet.")
    else (200, none)

/-- A token-bucket limiter (golang.org/x/time/rate): seconds per refilled token,
burst capacity, current tokens. rate.NewLimiter(rate.Every(time.Minute), b)
yields everySeconds = 60, burst = b, with the bucket initially full. -/
structure Limiter where
  everySeconds : Nat
  burst : Nat
  tokens : Nat
deriving DecidableEq, Repr

/-- Limiter.Allow: consume one token if available, returning the decision and
the updated bucket (no time passes within the handling of one request, so
refill between calls is not modelled here). -/
def Limiter.allow (l : Limiter) : Bool × Limiter :=
  if 0 < l.tokens then (true, { l with tokens := l.tokens - 1 }) else (false, l)

/-- A limiter pool (a Go map from string keys to limiters). -/
def LimiterMap := String → Option Limiter

def LimiterMap.empty : LimiterMap := fun _ => none

/-- getLimiter: look up the limiter stored for key; when absent, create one with
the pool's configuration (rate.Every(time.Minute), burst rps) and insert it. -/
def getLimiter (key : String) (m : LimiterMap) (rps : Nat) : Limiter × LimiterMap :=
  match m key with
  | some l => (l, m)
  | none =>
    let l : Limiter := { everySeconds := 60, burst := rps, tokens := rps }
    (l, fun k => if k = key then some l else m k)

/-- Lookup-or-create followed by Limiter.Allow, writing the consumed bucket back:
in Go the map stores a pointer, so Allow mutates the limiter stored in the map. -/
def allowKey (key : String) (m : LimiterMap) (rps : Nat) : Bool × LimiterMap :=
  let g := getLimiter key m rps
  let a := g.1.allow
  (a.1, fun k => if k = key then some a.2 else g.2 k)

/-- Burst configuration of the client-address pool (ipLimiters). -/
def ipRps : Nat := 100

/-- Burst configuration of the resource-identifier pool (cidLimiters). -/
def cidRps : Nat := 15

/-- Result of one request through the middleware: rejected via
http.Error(w, msg, status), or forwarded to the wrapped handler. -/
inductive MWResult where
  | rejected (status : Nat) (msg : String)
  | forwarded
deriving DecidableEq, Repr

/-- The two limiter pools (the package-level ipLimiters and cidLimiters maps). -/
structure LimState where
  ip : LimiterMap
  cid : LimiterMap

/-- Observable side-calls of handling one request: how many times the
token-extraction-plus-CID-parsing step ran, how many outbound moderation and
access calls were made, and how many consultations of each limiter pool. -/
structure MWTrace where
  parseSteps : Nat
  dmcaCalls : Nat
  accessCalls : Nat
  ipLookups : Nat
  cidLookups : Nat
deriving DecidableEq, Repr

/-- The gated path pattern /ipfs/ as a character sequence. -/
def gatePat : List Char := ['/', 'i', 'p', 'f', 's', '/']

/-- Boolean sequence-prefix test (strings.HasPrefix over character lists). -/
def leadsWith : List Char → List Char → Bool
  | [], _ => true
  | _ :: _, [] => false
  | a :: as, b :: bs => a == b && leadsWith as bs

/-- Token extraction, from regexp.MustCompile applied with FindStringSubmatch:
the pattern is /ipfs/ followed by a captured maximal non-empty run of
non-slash characters, matched at the leftmost position in the path where the
literal /ipfs/ is immediately followed by at least one non-slash character. -/
def findIpfsToken : List Char → Option (List Char)
  | [] => none
  | c :: cs =>
    let s := c :: cs
    let seg := (s.drop 6).takeWhile (fun d => !(d == '/'))
    if leadsWith gatePat s && !seg.isEmpty then some seg
    else findIpfsToken cs

/-- DedicatedGatewayMiddleware: the per-request admission state machine.
parseCid stands for cid.Parse from the external go-cid library; dmcaResp and
accessResp supply the remote outcome of the (at most one) outbound call each
policy check makes. Returns the response action, the updated limiter pools, and
the side-call trace. -/
def DedicatedGatewayMiddleware (cfg : ConfigPinningService)
    (parseCid : List Char → Option Cid) (dmcaResp accessResp : RemoteResp)
    (req : Request) (st : LimState) : MWResult × LimState × MWTrace :=
  if cfg.dedicatedGateway && leadsWith gatePat req.path then
    match findIpfsToken req.path with
    | none => (.rejected 400 "Invalid path", st, ⟨1, 0, 0, 0, 0⟩)
    | some tok =>
      match parseCid tok with
      | none => (.rejected 400 "Invalid hash", st, ⟨1, 0, 0, 0, 0⟩)
      | some c =>
        let dm := checkDmca c.canonical cfg dmcaResp
        match dm.2 with
        | some msg => (.rejected dm.1 msg, st, ⟨1, 1, 0, 0, 0⟩)
        | none =>
          let ac := getDedicatedGatewayAccess c.hashHex cfg accessResp
          match ac.2 with
          | some msg => (.rejected ac.1 msg, st, ⟨1, 1, 1, 0, 0⟩)
          | none => (.forwarded, st, ⟨1, 1, 1, 0, 0⟩)
  else if !cfg.dedicatedGateway && leadsWith gatePat req.path then
    let ipA := allowKey req.remoteAddr st.ip ipRps
    let st1 : LimState := ⟨ipA.2, st.cid⟩
    if !ipA.1 then
      (.rejected 429 "Too many requests from this IP", st1, ⟨0, 0, 0, 1, 0⟩)
    else
      match findIpfsToken req.path with
      | none => (.rejected 400 "Invalid path", st1, ⟨1, 0, 0, 1, 0⟩)
      | some tok =>
        match parseCid tok with
        | none => (.rejected 400 "Invalid hash", st1, ⟨1, 0, 0, 1, 0⟩)
        | some c =>
          let cidA := allowKey c.canonical st1.cid cidRps
          let st2 : LimState := ⟨st1.ip, cidA.2⟩
          if !cidA.1 then
            (.rejected 429 "Too many requests for this CID", st2, ⟨1, 0, 0, 1, 1⟩)
          else
            let dm := checkDmca c.canonical cfg dmcaResp
            match dm.2 with
            | some msg => (.rejected dm.1 msg, st2, ⟨1, 1, 0, 1, 1⟩)
            | none => (.forwarded, st2, ⟨1, 1, 0, 1, 1⟩)
  else (.forwarded, st, ⟨0, 0, 0, 0, 0⟩)

/-- What the composed handler does with a request: answer with a bare status and
no body (w.WriteHeader), or dispatch it into the top-level mux as it stands in
the post-composition state w. -/
inductive HandlerResult (σ : Type) where
  | bare (status : Nat)
  | dispatched (w : σ) (r : Request)
deriving DecidableEq, Repr

/-- http.MethodConnect. -/
def methodConnect : String := "CONNECT"

/-- MakeHandler: left-fold the ServeOption list from a fresh top-level mux, then
wrap the result in a handler answering CONNECT with a bare 200 and dispatching
every other method into the top-level mux. The type σ models the state of the
whole (mutable, shared) mux graph: an option maps that state to the next state
or fails, aborting composition with its error. -/
def MakeHandler {σ ε : Type} (options : List (σ → Except ε σ)) (fresh : σ) :
    Except ε (Request → HandlerResult σ) := do
  let w ← options.foldlM (fun m o => o m) fresh
  pure (fun r => if r.method = methodConnect then .bare 200 else .dispatched w r)

/-- shutdownTimeout: the fixed bound (in seconds) handed to the orderly
Shutdown call. -/
def shutdownTimeout : Nat := 30

/-- How a Serve run ends once the serve goroutine has started: either the serve
loop exits on its own first (carrying its own error), or the node's shutdown
signal arrives while serving, in which case both the loop's error (written by
the goroutine) and the Shutdown call's error are observed. -/
inductive ServeEnd where
  | loopExited (loopErr : Option String)
  | shutdownSignalled (loopErr : Option String) (shutdownErr : Option String)
deriving DecidableEq, Repr

/-- The successive writes to the serverError variable in Serve: the serve
goroutine writes the loop's error; in the shutdown branch, after waiting for
the goroutine, serverError is overwritten with the Shutdown call's error. -/
def serverErrorWrites : ServeEnd → List (Option String)
  | .loopExited e => [e]
  | .shutdownSignalled l s => [l, s]

/-- The error Serve returns: the last value written to serverError. -/
def serveResult (e : ServeEnd) : Option String :=
  (serverErrorWrites e).getLastD none

/-- Concrete dedicated-mode configuration used by witnesses. -/
def cfgDed : ConfigPinningService := ⟨"svc", "key", true⟩

/-- Concrete open-mode configuration used by witnesses. -/
def cfgOpen : ConfigPinningService := ⟨"svc", "key", false⟩

/-- Concrete CID parser used by witnesses: accepts exactly the token Qm1. -/
def parse1 : List Char → Option Cid :=
  fun t => if t = ['Q', 'm', '1'] then some ⟨"Qm1", "AB"⟩ else none

/-- Concrete request for path /ipfs/Qm1 used by witnesses. -/
def req1 : Request := ⟨['/', 'i', 'p', 'f', 's', '/', 'Q', 'm', '1'], "1.2.3.4", "GET"⟩

/-- Fresh limiter pools used by witnesses. -/
def st0 : LimState := ⟨LimiterMap.empty, LimiterMap.empty⟩

/-- Concrete ServeOption used by the handler-composition witness. -/
def optA : Nat → Except String Nat := fun n => .ok (n + 1)

/-- Concrete ServeOption used by the handler-composition witness. -/
def optB : Nat → Except String Nat := fun n => .ok (n * 2)

/-- Helper: the Allow decision for a key depends only on the pool entry stored
at that key. -/
theorem allowKey_fst_congr (key : String) (m1 m2 : LimiterMap) (rps : Nat)
    (h : m1 key = m2 key) :
    (allowKey key m1 rps).1 = (allowKey key m2 rps).1 := by
  unfold allowKey getLimiter
  rw [h]
  cases m2 key <;> simp

/-- Claim C1: in open mode (dedicated-gateway flag false), for a request whose
path has the gated /ipfs/ prefix, the middleware checks run in this exact order,
stopping at the first failure: (1) client-address limiter keyed by the remote
address (deny: 429 "Too many requests from this IP", with no identifier parsing
and no policy call); (2) token extraction and CID parsing (failure: 400);
(3) resource-identifier limiter keyed by the canonical CID string (deny: 429
"Too many requests for this CID"); (4) moderation check (failure: the mapped
status); only when all pass is the request forwarded, and the access check is
never invoked in open mode. -/
theorem C1_open_mode_order (cfg : ConfigPinningService)
    (parseCid : List Char → Option Cid) (dmcaResp accessResp : RemoteResp)
    (req : Request) (st : LimState)
    (hd : cfg.dedicatedGateway = false)
    (hp : leadsWith gatePat req.path = true) :
    ((allowKey req.remoteAddr st.ip ipRps).1 = false →
      (DedicatedGatewayMiddleware cfg parseCid dmcaResp accessResp req st).1
          = .rejected 429 "Too many requests from this IP" ∧
      (DedicatedGatewayMiddleware cfg parseCid dmcaResp accessResp req st).2.2
          = ⟨0, 0, 0, 1, 0⟩) ∧
    ((allowKey req.remoteAddr st.ip ipRps).1 = true →
      findIpfsToken req.path = none →
      (DedicatedGatewayMiddleware cfg parseCid dmcaResp accessResp req st).1
          = .rejected 400 "Invalid path" ∧
      (DedicatedGatewayMiddleware cfg parseCid dmcaResp accessResp req st).2.2
          = ⟨1, 0, 0, 1, 0⟩) ∧
    (∀ tok, (allowKey req.remoteAddr st.ip ipRps).1 = true →
      findIpfsToken req.path = some tok → parseCid tok = none →
      (DedicatedGatewayMiddleware cfg parseCid dmcaResp accessResp req st).1
          = .rejected 400 "Invalid hash" ∧
      (DedicatedGatewayMiddleware cfg parseCid dmcaResp accessResp req st).2.2
          = ⟨1, 0, 0, 1, 0⟩) ∧
    (∀ tok c, (allowKey req.remoteAddr st.ip ipRps).1 = true →
      findIpfsToken req.path = some tok → parseCid tok = some c →
      (allowKey c.canonical st.cid cidRps).1 = false →
      (DedicatedGatewayMiddleware cfg parseCid dmcaResp accessResp req st).1
          = .rejected 429 "Too many requests for this CID" ∧
      (DedicatedGatewayMiddleware cfg parseCid dmcaResp accessResp req st).2.1.cid
          = (allowKey c.canonical st.cid cidRps).2 ∧
      (DedicatedGatewayMiddleware cfg parseCid dmcaResp accessResp req st).2.2
          = ⟨1, 0, 0, 1, 1⟩) ∧
    (∀ tok c status msg, (allowKey req.remoteAddr st.ip ipRps).1 = true →
      findIpfsToken req.path = some tok → parseCid tok = some c →
      (allowKey c.canonical st.cid cidRps).1 = true →
      checkDmca c.canonical cfg dmcaResp = (status, some msg) →
      (DedicatedGatewayMiddleware cfg parseCid dmcaResp accessResp req st).1
          = .rejected status msg) ∧
    (∀ tok c, (allowKey req.remoteAddr st.ip ipRps).1 = true →
      findIpfsToken req.path = some tok → parseCid tok = some c →
      (allowKey c.canonical st.cid cidRps).1 = true →
      (checkDmca c.canonical cfg dmcaResp).2 = none →
      (DedicatedGatewayMiddleware cfg parseCid dmcaResp accessResp req st).1
          = .forwarded) ∧
    (DedicatedGatewayMiddleware cfg parseCid dmcaResp accessResp req st).2.2.accessCalls
        = 0 := by
  refine ⟨?_, ?_, ?_, ?_, ?_, ?_, ?_⟩
  · intro hip
    simp [DedicatedGatewayMiddleware, hd, hp, hip]
  · intro hip hft
    simp [DedicatedGatewayMiddleware, hd, hp, hip, hft]
  · intro tok hip hft hpc
    simp [DedicatedGatewayMiddleware, hd, hp, hip, hft, hpc]
  · intro tok c hip hft hpc hcid
    simp [DedicatedGatewayMiddleware, hd, hp, hip, hft, hpc, hcid]
  · intro tok c status msg hip hft hpc hcid hdm
    simp [DedicatedGatewayMiddleware, hd, hp, hip, hft, hpc, hcid, hdm]
  · intro tok c hip hft hpc hcid hdm
    simp [DedicatedGatewayMiddleware, hd, hp, hip, hft, hpc, hcid, hdm]
  · simp only [DedicatedGatewayMiddleware, hd, hp]
    repeat' (split <;> try simp)
    all_goals simp_all

/-- Witness for C1: a concrete open-mode request that passes every stage and is
forwarded. -/
theorem C1_witness :
    (DedicatedGatewayMiddleware cfgOpen parse1 (some (200, "ok")) (some (200, "ok")) req1 st0).1
      = .forwarded :=
  (C1_open_mode_order cfgOpen parse1 (some (200, "ok")) (some (200, "ok")) req1 st0 rfl
      (by decide)).2.2.2.2.2.1 ['Q', 'm', '1'] ⟨"Qm1", "AB"⟩
    (by decide) (by decide) (by decide) (by decide) (by decide)

/-- Claim C2: in dedicated mode, once the resource identifier parses, the
moderation check runs first; when it fails the request is rejected with the
mapped status and the access check is never called; the access check is called
only after the moderation check allows, and the request is forwarded exactly
when both checks allow. -/
theorem C2_dedicated_moderation_first (cfg : ConfigPinningService)
    (parseCid : List Char → Option Cid) (dmcaResp accessResp : RemoteResp)
    (req : Request) (st : LimState) (tok : List Char) (c : Cid)
    (hd : cfg.dedicatedGateway = true)
    (hp : leadsWith gatePat req.path = true)
    (ht : findIpfsToken req.path = some tok)
    (hc : parseCid tok = some c) :
    (∀ status msg, checkDmca c.canonical cfg dmcaResp = (status, some msg) →
      (DedicatedGatewayMiddleware cfg parseCid dmcaResp accessResp req st).1
          = .rejected status msg ∧
      (DedicatedGatewayMiddleware cfg parseCid dmcaResp accessResp req st).2.2.accessCalls
          = 0) ∧
    ((checkDmca c.canonical cfg dmcaResp).2 = none →
      (DedicatedGatewayMiddleware cfg parseCid dmcaResp accessResp req st).2.2.accessCalls
          = 1 ∧
      (∀ status msg,
        getDedicatedGatewayAccess c.hashHex cfg accessResp = (status, some msg) →
        (DedicatedGatewayMiddleware cfg parseCid dmcaResp accessResp req st).1
            = .rejected status msg) ∧
      ((getDedicatedGatewayAccess c.hashHex cfg accessResp).2 = none →
        (DedicatedGatewayMiddleware cfg parseCid dmcaResp accessResp req st).1
            = .forwarded)) ∧
    (DedicatedGatewayMiddleware cfg parseCid dmcaResp accessResp req st).2.2.dmcaCalls
        = 1 := by
  refine ⟨?_, ?_, ?_⟩
  · intro status msg hdm
    constructor <;> simp [DedicatedGatewayMiddleware, hd, hp, ht, hc, hdm]
  · intro hdm
    refine ⟨?_, ?_, ?_⟩
    · simp [DedicatedGatewayMiddleware, hd, hp, ht, hc, hdm]
      repeat' (split <;> try simp)
    · intro status msg hac
      simp [DedicatedGatewayMiddleware, hd, hp, ht, hc, hdm, hac]
    · intro hac
      simp [DedicatedGatewayMiddleware, hd, hp, ht, hc, hdm, hac]
  · simp only [DedicatedGatewayMiddleware, hd, hp, ht, hc]
    repeat' (split <;> try simp)
    all_goals simp_all

/-- Witness for C2: a concrete dedicated-mode request whose moderation call
returns 451 is rejected with status 451 and the access check is never made. -/
theorem C2_witness :
    (DedicatedGatewayMiddleware cfgDed parse1 (some (451, "r")) (some (200, "ok")) req1 st0).1
        = .rejected 451 "Something went wrong" ∧
    (DedicatedGatewayMiddleware cfgDed parse1 (some (451, "r")) (some (200, "ok")) req1 st0).2.2.accessCalls
        = 0 :=
  (C2_dedicated_moderation_first cfgDed parse1 (some (451, "r")) (some (200, "ok")) req1 st0
      ['Q', 'm', '1'] ⟨"Qm1", "AB"⟩ rfl (by decide) (by decide) (by decide)).1
    451 "Something went wrong" (by decide)

/-- Claim C3 counterexample: on a remote response with status 404 and a remote
message of its own, the moderation check answers with the fixed local message
"Something went wrong", not with the remote's own message, contradicting the
claim that the moderation check propagates the remote's message. -/
theorem C3_counterexample :
    checkDmca "Qm1" ⟨"svc", "key", true⟩ (some (404, "remote custom message"))
        = (404, some "Something went wrong") ∧
    checkDmca "Qm1" ⟨"svc", "key", true⟩ (some (404, "remote custom message"))
        ≠ (404, some "remote custom message") := by
  constructor <;> decide

/-- Claim C3 as amended: on a remote status that is neither 200 nor 410, both
checks deny with the remote's status code and a fixed locally-generated message,
"Something went wrong" for the moderation check and "No users have subscribed to
this hash yet." for the access check; neither check reads the remote's message. -/
theorem C3_amended (h : String) (cfg : ConfigPinningService) (code : Nat) (msg : String)
    (h200 : code ≠ 200) (h410 : code ≠ 410) :
    checkDmca h cfg (some (code, msg)) = (code, some "Something went wrong") ∧
    getDedicatedGatewayAccess h cfg (some (code, msg))
        = (code, some "No users have subscribed to this hash yet.") := by
  constructor
  · simp [checkDmca, h200, h410]
  · simp [getDedicatedGatewayAccess, h200]

/-- Witness for the amended C3, at remote status 451. -/
theorem C3_amended_witness :
    checkDmca "Qm1" ⟨"svc", "key", true⟩ (some (451, "m")) = (451, some "Something went wrong") ∧
    getDedicatedGatewayAccess "Qm1" ⟨"svc", "key", true⟩ (some (451, "m"))
        = (451, some "No users have subscribed to this hash yet.") :=
  C3_amended "Qm1" ⟨"svc", "key", true⟩ 451 "m" (by decide) (by decide)

/-- Claim C4: whenever the moderation call's remote status is 410 (Gone), a
gated request that reaches the moderation check is rejected with final status
410 and the fixed takedown message, in dedicated mode and in open mode alike
(in open mode provided the two limiters admit the request, which is what
reaching the check requires). -/
theorem C4_gone_rejects_both_modes (cfg : ConfigPinningService)
    (parseCid : List Char → Option Cid) (accessResp : RemoteResp)
    (req : Request) (st : LimState) (tok : List Char) (c : Cid) (m : String)
    (hp : leadsWith gatePat req.path = true)
    (ht : findIpfsToken req.path = some tok)
    (hc : parseCid tok = some c)
    (hopen : cfg.dedicatedGateway = false →
      (allowKey req.remoteAddr st.ip ipRps).1 = true ∧
      (allowKey c.canonical st.cid cidRps).1 = true) :
    (DedicatedGatewayMiddleware cfg parseCid (some (410, m)) accessResp req st).1
      = .rejected 410 takedownMsg := by
  cases hdg : cfg.dedicatedGateway with
  | false =>
    obtain ⟨hip, hcid⟩ := hopen hdg
    simp [DedicatedGatewayMiddleware, hdg, hp, ht, hc, hip, hcid, checkDmca]
  | true =>
    simp [DedicatedGatewayMiddleware, hdg, hp, ht, hc, checkDmca]

/-- Witness for C4: a concrete dedicated-mode request whose moderation call
returns 410 is rejected with 410 and the takedown message. -/
theorem C4_witness :
    (DedicatedGatewayMiddleware cfgDed parse1 (some (410, "m")) (some (200, "ok")) req1 st0).1
      = .rejected 410 takedownMsg :=
  C4_gone_rejects_both_modes cfgDed parse1 (some (200, "ok")) req1 st0 ['Q', 'm', '1']
    ⟨"Qm1", "AB"⟩ "m" (by decide) (by decide) (by decide)
    (by intro h; exact absurd h (by decide))

/-- Claim C5: for both policy checks, a transport-level failure of the single
outbound call yields internal-error status 500 with a generic call-failure
message; remote status 200 is the only outcome that lets the request past the
check; each check is consulted at most once per request (no retries); and a
request that reaches a check whose call failed at transport level is rejected
with 500, not forwarded. -/
theorem C5_fail_closed (h1 h2 : String) (cfg : ConfigPinningService) (resp : RemoteResp) :
    checkDmca h1 cfg none = (500, some "Error while calling DMCA API") ∧
    getDedicatedGatewayAccess h2 cfg none = (500, some "Error while calling dedicated gateway API") ∧
    ((checkDmca h1 cfg resp).2 = none ↔ ∃ m, resp = some (200, m)) ∧
    ((getDedicatedGatewayAccess h2 cfg resp).2 = none ↔ ∃ m, resp = some (200, m)) ∧
    (∀ parseCid dmcaResp accessResp req st,
      (DedicatedGatewayMiddleware cfg parseCid dmcaResp accessResp req st).2.2.dmcaCalls ≤ 1 ∧
      (DedicatedGatewayMiddleware cfg parseCid dmcaResp accessResp req st).2.2.accessCalls ≤ 1) ∧
    (∀ parseCid accessResp req st tok c,
      leadsWith gatePat req.path = true →
      findIpfsToken req.path = some tok → parseCid tok = some c →
      (cfg.dedicatedGateway = false →
        (allowKey req.remoteAddr st.ip ipRps).1 = true ∧
        (allowKey c.canonical st.cid cidRps).1 = true) →
      (DedicatedGatewayMiddleware cfg parseCid none accessResp req st).1
        = .rejected 500 "Error while calling DMCA API") ∧
    (∀ parseCid req st tok c,
      cfg.dedicatedGateway = true →
      leadsWith gatePat req.path = true →
      findIpfsToken req.path = some tok → parseCid tok = some c →
      (DedicatedGatewayMiddleware cfg parseCid (some (200, "")) none req st).1
        = .rejected 500 "Error while calling dedicated gateway API") := by
  refine ⟨by simp [checkDmca], by simp [getDedicatedGatewayAccess], ?_, ?_, ?_, ?_, ?_⟩
  · rcases resp with _ | ⟨code, m⟩
    · simp [checkDmca]
    · by_cases h4 : code = 410
      · simp [checkDmca, h4]
      · by_cases h0 : code = 200
        · simp [checkDmca, h4, h0]
        · simp [checkDmca, h4, h0]
  · rcases resp with _ | ⟨code, m⟩
    · simp [getDedicatedGatewayAccess]
    · by_cases h0 : code = 200
      · simp [getDedicatedGatewayAccess, h0]
      · simp [getDedicatedGatewayAccess, h0]
  · intro parseCid dmcaResp accessResp req st
    unfold DedicatedGatewayMiddleware
    constructor <;> (repeat' (split <;> try simp))
  · intro parseCid accessResp req st tok c hp ht hc hopen
    cases hdg : cfg.dedicatedGateway with
    | false =>
      obtain ⟨hip, hcid⟩ := hopen hdg
      simp [DedicatedGatewayMiddleware, hdg, hp, ht, hc, hip, hcid, checkDmca]
    | true =>
      simp [DedicatedGatewayMiddleware, hdg, hp, ht, hc, checkDmca]
  · intro parseCid req st tok c hdg hp ht hc
    simp [DedicatedGatewayMiddleware, hdg, hp, ht, hc, checkDmca, getDedicatedGatewayAccess]

/-- Witness for C5 at concrete hashes, configuration, and remote response. -/
theorem C5_witness :
    checkDmca "Qm1" cfgDed none = (500, some "Error while calling DMCA API") ∧
    getDedicatedGatewayAccess "AB" cfgDed none
        = (500, some "Error while calling dedicated gateway API") ∧
    ((checkDmca "Qm1" cfgDed (some (200, "ok"))).2 = none
        ↔ ∃ m, (some (200, "ok") : RemoteResp) = some (200, m)) ∧
    ((getDedicatedGatewayAccess "AB" cfgDed (some (200, "ok"))).2 = none
        ↔ ∃ m, (some (200, "ok") : RemoteResp) = some (200, m)) ∧
    (∀ parseCid dmcaResp accessResp req st,
      (DedicatedGatewayMiddleware cfgDed parseCid dmcaResp accessResp req st).2.2.dmcaCalls ≤ 1 ∧
      (DedicatedGatewayMiddleware cfgDed parseCid dmcaResp accessResp req st).2.2.accessCalls ≤ 1) ∧
    (∀ parseCid accessResp req st tok c,
      leadsWith gatePat req.path = true →
      findIpfsToken req.path = some tok → parseCid tok = some c →
      (cfgDed.dedicatedGateway = false →
        (allowKey req.remoteAddr st.ip ipRps).1 = true ∧
        (allowKey c.canonical st.cid cidRps).1 = true) →
      (DedicatedGatewayMiddleware cfgDed parseCid none accessResp req st).1
        = .rejected 500 "Error while calling DMCA API") ∧
    (∀ parseCid req st tok c,
      cfgDed.dedicatedGateway = true →
      leadsWith gatePat req.path = true →
      findIpfsToken req.path = some tok → parseCid tok = some c →
      (DedicatedGatewayMiddleware cfgDed parseCid (some (200, "")) none req st).1
        = .rejected 500 "Error while calling dedicated gateway API") :=
  C5_fail_closed "Qm1" "AB" cfgDed (some (200, "ok"))

/-- Claim C6: getLimiter returns the limiter stored for the key when present
(pool unchanged), creates and inserts a fresh token bucket with the pool's fixed
configuration (one token per 60 seconds, burst rps, initially full) exactly when
the key is absent, never disturbs any other key, and consuming one key's budget
leaves every other key's entry and Allow decision unchanged; the two pools are
configured with bursts 100 (client addresses) and 15 (resource identifiers). -/
theorem C6_getLimiter_pool (key key' : String) (m : LimiterMap) (rps rps' : Nat)
    (l : Limiter) (hne : key' ≠ key) :
    (m key = some l → getLimiter key m rps = (l, m)) ∧
    (m key = none →
      (getLimiter key m rps).1 = ⟨60, rps, rps⟩ ∧
      (getLimiter key m rps).2 key = some ⟨60, rps, rps⟩) ∧
    (getLimiter key m rps).2 key' = m key' ∧
    (allowKey key m rps).2 key' = m key' ∧
    (allowKey key' (allowKey key m rps).2 rps').1 = (allowKey key' m rps').1 ∧
    ipRps = 100 ∧ cidRps = 15 := by
  have hframe : (allowKey key m rps).2 key' = m key' := by
    cases hm : m key <;> simp [allowKey, getLimiter, hm, hne]
  refine ⟨?_, ?_, ?_, hframe, ?_, rfl, rfl⟩
  · intro hm
    simp [getLimiter, hm]
  · intro hm
    simp [getLimiter, hm]
  · cases hm : m key <;> simp [getLimiter, hm, hne]
  · exact allowKey_fst_congr key' _ m rps' hframe

/-- Witness for C6 on the empty pool with keys a and b. -/
theorem C6_witness :
    (LimiterMap.empty "a" = some ⟨60, 5, 5⟩ →
      getLimiter "a" LimiterMap.empty 5 = (⟨60, 5, 5⟩, LimiterMap.empty)) ∧
    (LimiterMap.empty "a" = none →
      (getLimiter "a" LimiterMap.empty 5).1 = ⟨60, 5, 5⟩ ∧
      (getLimiter "a" LimiterMap.empty 5).2 "a" = some ⟨60, 5, 5⟩) ∧
    (getLimiter "a" LimiterMap.empty 5).2 "b" = LimiterMap.empty "b" ∧
    (allowKey "a" LimiterMap.empty 5).2 "b" = LimiterMap.empty "b" ∧
    (allowKey "b" (allowKey "a" LimiterMap.empty 5).2 7).1 = (allowKey "b" LimiterMap.empty 7).1 ∧
    ipRps = 100 ∧ cidRps = 15 :=
  C6_getLimiter_pool "a" "b" LimiterMap.empty 5 7 ⟨60, 5, 5⟩ (by decide)

/-- Claim C7 counterexample: the path /ipfs//ipfs/abc has the gated prefix but
no non-empty segment immediately after it, so per the claim it should be
rejected with 400 "Invalid path"; the unanchored regex instead extracts the
later segment abc, and the request is rejected with 400 "Invalid hash" (the
token fails CID parsing), not "Invalid path". -/
theorem C7_counterexample :
    leadsWith gatePat (String.toList "/ipfs//ipfs/abc") = true ∧
    findIpfsToken (String.toList "/ipfs//ipfs/abc") = some ['a', 'b', 'c'] ∧
    (DedicatedGatewayMiddleware cfgOpen (fun _ => none) (some (200, "ok")) (some (200, "ok"))
        ⟨String.toList "/ipfs//ipfs/abc", "1.2.3.4", "GET"⟩ st0).1
      = .rejected 400 "Invalid hash" ∧
    (DedicatedGatewayMiddleware cfgOpen (fun _ => none) (some (200, "ok")) (some (200, "ok"))
        ⟨String.toList "/ipfs//ipfs/abc", "1.2.3.4", "GET"⟩ st0).1
      ≠ .rejected 400 "Invalid path" := by
  refine ⟨by decide, by decide, by decide, by decide⟩

/-- Claim C7 as amended: the raw token is the capture of the unanchored pattern
/ipfs/ followed by a maximal non-empty run of non-slash characters, at its
leftmost match in the path. When the prefix /ipfs/ is immediately followed by a
non-slash character this is the segment right after the prefix (so
/ipfs/bafy123/extra yields bafy123); /ipfs/ alone yields no token and a gated
request is rejected with 400 "Invalid path" when no token is found, and with
400 "Invalid hash" when the token fails CID parsing; but a path such as
/ipfs//ipfs/abc yields the later segment abc rather than being rejected as an
invalid path. -/
theorem C7_amended :
    (∀ (c : Char) (cs : List Char), (c == '/') = false →
      findIpfsToken ('/' :: 'i' :: 'p' :: 'f' :: 's' :: '/' :: c :: cs)
        = some (c :: cs.takeWhile (fun d => !(d == '/')))) ∧
    findIpfsToken (String.toList "/ipfs/bafy123/extra") = some (String.toList "bafy123") ∧
    findIpfsToken (String.toList "/ipfs/") = none ∧
    findIpfsToken (String.toList "/ipfs//ipfs/abc") = some ['a', 'b', 'c'] ∧
    (∀ cfg parseCid dmcaResp accessResp req st,
      leadsWith gatePat req.path = true →
      (cfg.dedicatedGateway = false → (allowKey req.remoteAddr st.ip ipRps).1 = true) →
      (findIpfsToken req.path = none →
        (DedicatedGatewayMiddleware cfg parseCid dmcaResp accessResp req st).1
            = .rejected 400 "Invalid path") ∧
      (∀ tok, findIpfsToken req.path = some tok → parseCid tok = none →
        (DedicatedGatewayMiddleware cfg parseCid dmcaResp accessResp req st).1
            = .rejected 400 "Invalid hash")) := by
  refine ⟨?_, by decide, by decide, by decide, ?_⟩
  · intro c cs hc
    simp [findIpfsToken, leadsWith, gatePat, hc, List.takeWhile_cons]
  · intro cfg parseCid dmcaResp accessResp req st hp hip
    constructor
    · intro hft
      cases hdg : cfg.dedicatedGateway with
      | false => simp [DedicatedGatewayMiddleware, hdg, hp, hip hdg, hft]
      | true => simp [DedicatedGatewayMiddleware, hdg, hp, hft]
    · intro tok hft hpc
      cases hdg : cfg.dedicatedGateway with
      | false => simp [DedicatedGatewayMiddleware, hdg, hp, hip hdg, hft, hpc]
      | true => simp [DedicatedGatewayMiddleware, hdg, hp, hft, hpc]

/-- Witness for the amended C7 on the path /ipfs/Qm. -/
theorem C7_witness :
    findIpfsToken ('/' :: 'i' :: 'p' :: 'f' :: 's' :: '/' :: 'Q' :: ['m'])
      = some ('Q' :: (['m'].takeWhile (fun d => !(d == '/')))) :=
  C7_amended.1 'Q' ['m'] (by decide)

/-- Claim C8: a handler built by MakeHandler answers the CONNECT method with a
bare 200 and no dispatch, and dispatches every other method into the top-level
mux in the state obtained by left-folding the option list from the fresh mux. -/
theorem C8_make_handler {σ ε : Type} (options : List (σ → Except ε σ)) (fresh : σ)
    (h : Request → HandlerResult σ)
    (hmk : MakeHandler options fresh = .ok h) :
    ∃ w, options.foldlM (fun m o => o m) fresh = .ok w ∧
      (∀ r, r.method = methodConnect → h r = .bare 200) ∧
      (∀ r, r.method ≠ methodConnect → h r = .dispatched w r) := by
  cases hf : options.foldlM (fun m o => o m) fresh with
  | error e => simp [MakeHandler, hf] at hmk
  | ok w =>
    simp [MakeHandler, hf] at hmk
    refine ⟨w, rfl, ?_, ?_⟩ <;> intro r hr <;> rw [← hmk] <;> simp [hr]

/-- Witness for C8 with two concrete options folding 0 to 2. -/
theorem C8_witness :
    ∃ w, ([optA, optB].foldlM (fun m o => o m) 0 = Except.ok w) ∧
      (∀ r, r.method = methodConnect →
        (fun r => if r.method = methodConnect then HandlerResult.bare 200
                  else HandlerResult.dispatched 2 r) r = .bare 200) ∧
      (∀ r, r.method ≠ methodConnect →
        (fun r => if r.method = methodConnect then HandlerResult.bare 200
                  else HandlerResult.dispatched 2 r) r = .dispatched w r) := by
  exact C8_make_handler [optA, optB] 0
    (fun r => if r.method = methodConnect then HandlerResult.bare 200
              else HandlerResult.dispatched 2 r) rfl

/-- Claim C9: Serve returns the serve loop's own error when the loop exits
before any shutdown signal, and when the shutdown signal arrives while serving
it returns the orderly Shutdown call's error instead, replacing whatever error
the loop wrote (nil on a clean drain); the Shutdown call is bounded by the fixed
30-second timeout constant. -/
theorem C9_serve_error (l s e : Option String) :
    serveResult (.loopExited e) = e ∧
    serveResult (.shutdownSignalled l s) = s ∧
    shutdownTimeout = 30 :=
  ⟨rfl, rfl, rfl⟩

/-- Claim C10 counterexample: in dedicated mode a remote moderation status of
429 is propagated, so the request is rejected with status 429, contradicting
the claim that a dedicated-mode request is never rejected with 429. -/
theorem C10_counterexample :
    cfgDed.dedicatedGateway = true ∧
    (DedicatedGatewayMiddleware cfgDed parse1 (some (429, "r")) (some (200, "ok")) req1 st0).1
      = .rejected 429 "Something went wrong" := by
  refine ⟨rfl, by decide⟩

/-- Claim C10 as amended: in dedicated mode a request never touches either
rate-limiter pool (no lookups, both pool maps unchanged) and is never rejected
with either rate-limit response; a 429 status can still occur, but only as a
status propagated from a policy check's remote response, carrying one of the
policy checks' fixed messages. -/
theorem C10_amended (cfg : ConfigPinningService) (parseCid : List Char → Option Cid)
    (dmcaResp accessResp : RemoteResp) (req : Request) (st : LimState)
    (hd : cfg.dedicatedGateway = true) :
    (DedicatedGatewayMiddleware cfg parseCid dmcaResp accessResp req st).2.1.ip = st.ip ∧
    (DedicatedGatewayMiddleware cfg parseCid dmcaResp accessResp req st).2.1.cid = st.cid ∧
    (DedicatedGatewayMiddleware cfg parseCid dmcaResp accessResp req st).2.2.ipLookups = 0 ∧
    (DedicatedGatewayMiddleware cfg parseCid dmcaResp accessResp req st).2.2.cidLookups = 0 ∧
    (DedicatedGatewayMiddleware cfg parseCid dmcaResp accessResp req st).1
        ≠ .rejected 429 "Too many requests from this IP" ∧
    (DedicatedGatewayMiddleware cfg parseCid dmcaResp accessResp req st).1
        ≠ .rejected 429 "Too many requests for this CID" ∧
    (∀ msg, (DedicatedGatewayMiddleware cfg parseCid dmcaResp accessResp req st).1
        = .rejected 429 msg →
      msg = "Something went wrong" ∨ msg = "No users have subscribed to this hash yet.") := by
  cases hpre : leadsWith gatePat req.path with
  | false => simp [DedicatedGatewayMiddleware, hd, hpre]
  | true =>
    rcases hft : findIpfsToken req.path with _ | tok
    · simp [DedicatedGatewayMiddleware, hd, hpre, hft]
    · rcases hpc : parseCid tok with _ | c
      · simp [DedicatedGatewayMiddleware, hd, hpre, hft, hpc]
      · rcases dmcaResp with _ | ⟨dcode, dmsg⟩
        · simp [DedicatedGatewayMiddleware, hd, hpre, hft, hpc, checkDmca]
        · by_cases h4 : dcode = 410
          · subst h4
            simp [DedicatedGatewayMiddleware, hd, hpre, hft, hpc, checkDmca, takedownMsg]
          · by_cases h0 : dcode = 200
            · subst h0
              rcases accessResp with _ | ⟨acode, amsg⟩
              · simp [DedicatedGatewayMiddleware, hd, hpre, hft, hpc, checkDmca,
                  getDedicatedGatewayAccess]
              · by_cases a0 : acode = 200
                · subst a0
                  simp [DedicatedGatewayMiddleware, hd, hpre, hft, hpc, checkDmca,
                    getDedicatedGatewayAccess]
                · have hred : DedicatedGatewayMiddleware cfg parseCid (some (200, dmsg))
                      (some (acode, amsg)) req st
                      = (.rejected acode "No users have subscribed to this hash yet.", st,
                          ⟨1, 1, 1, 0, 0⟩) := by
                    simp [DedicatedGatewayMiddleware, hd, hpre, hft, hpc, checkDmca,
                      getDedicatedGatewayAccess, a0]
                  rw [hred]
                  refine ⟨rfl, rfl, rfl, rfl, ?_, ?_, ?_⟩
                  · intro hcontra
                    injection hcontra with h1 h2
                    exact absurd h2 (by decide)
                  · intro hcontra
                    injection hcontra with h1 h2
                    exact absurd h2 (by decide)
                  · intro msg hcontra
                    injection hcontra with h1 h2
                    exact Or.inr h2.symm
            · have hred : DedicatedGatewayMiddleware cfg parseCid (some (dcode, dmsg))
                  accessResp req st
                  = (.rejected dcode "Something went wrong", st, ⟨1, 1, 0, 0, 0⟩) := by
                simp [DedicatedGatewayMiddleware, hd, hpre, hft, hpc, checkDmca, h4, h0]
              rw [hred]
              refine ⟨rfl, rfl, rfl, rfl, ?_, ?_, ?_⟩
              · intro hcontra
                injection hcontra with h1 h2
                exact absurd h2 (by decide)
              · intro hcontra
                injection hcontra with h1 h2
                exact absurd h2 (by decide)
              · intro msg hcontra
                injection hcontra with h1 h2
                exact Or.inl h2.symm

/-- Witness for the amended C10: a concrete dedicated-mode request leaves the
client-address pool untouched. -/
theorem C10_witness :
    (DedicatedGatewayMiddleware cfgDed parse1 (some (429, "r")) (some (200, "ok")) req1 st0).2.1.ip
        = st0.ip ∧
    (DedicatedGatewayMiddleware cfgDed parse1 (some (429, "r")) (some (200, "ok")) req1 st0).2.2.ipLookups
        = 0 :=
  ⟨(C10_amended cfgDed parse1 (some (429, "r")) (some (200, "ok")) req1 st0 rfl).1,
   (C10_amended cfgDed parse1 (some (429, "r")) (some (200, "ok")) req1 st0 rfl).2.2.1⟩

end Kubo
